import Mathlib

/-!
Shallow embedding of the VAJRA client (a React single-page app):

* `src/unnamed/part_001` (`api.js`): `analyzeFile` — fetch wrapper for the
  backend `/analyze` endpoint;
* `src/backend/frontend/src/components/UploadForm.js`: `handleSubmit` —
  validation, the `onStart`/`onResult`/`onError` callback protocol;
* `src/frontend/src/App.js`: the three lifecycle fields
  `loading`/`result`/`error` and their setters, modelled as a step function
  on an explicit state;
* `src/frontend/src/components/ResultCard.js` and
  `src/unnamed/part_000` (`SummaryGraph.js`): the presenter, modelled over a
  small JavaScript value type so that property access on `undefined`/`null`
  (the only way this code can throw) is captured by `Except`.
-/

namespace Vajra

/-- A JavaScript runtime value, restricted to the shapes this client
manipulates.  Numbers are modelled as rationals (no NaN/Infinity literal is
produced by this code path; a NaN arising from coercion is modelled as `none`
at the points where numbers are consumed). -/
inductive JsVal where
  | undefined
  | null
  | bool (b : Bool)
  | num (q : ℚ)
  | str (s : String)
  | obj (fields : List (String × JsVal))

/-- JavaScript truthiness for the values of `JsVal`. -/
def jsTruthy : JsVal → Bool
  | .undefined => false
  | .null => false
  | .bool b => b
  | .num q => if q = 0 then false else true
  | .str s => if s = "" then false else true
  | .obj _ => true

/-- Property read `v[k]`, JavaScript semantics: throws a `TypeError` on
`undefined` and `null`; yields `undefined` on objects lacking the key and on
primitives (which box to wrappers without the property). -/
def getField (v : JsVal) (k : String) : Except String JsVal :=
  match v with
  | .undefined => .error ("TypeError: cannot read properties of undefined, reading " ++ k)
  | .null => .error ("TypeError: cannot read properties of null, reading " ++ k)
  | .obj fs => .ok ((fs.lookup k).getD .undefined)
  | _ => .ok .undefined

/-- The string `s || d` (JavaScript `||` on a string with a string default):
the empty string is falsy.  An absent `err.message` is modelled by `""`. -/
def strOr (s d : String) : String := if s = "" then d else s

/-- JavaScript `a || b`. -/
def jsOr (a b : JsVal) : JsVal := if jsTruthy a then a else b

/-- The `String(v)` conversion.  Number formatting is approximated by the
rational literal printer; no claim depends on `String` applied to a number. -/
def jsString : JsVal → String
  | .undefined => "undefined"
  | .null => "null"
  | .bool b => if b then "true" else "false"
  | .num q => toString q
  | .str s => s
  | .obj _ => "[object Object]"

/-- Rendering a JSX expression child `{v}`: React renders `undefined`,
`null` and booleans as nothing, strings as themselves, and throws on plain
objects.  Number formatting is approximated by the rational printer; no claim
renders a number child. -/
def renderChild : JsVal → Except String String
  | .obj _ => .error "Objects are not valid as a React child"
  | .str s => .ok s
  | .num q => .ok (toString q)
  | _ => .ok ""

/-- JavaScript numeric coercion, `none` playing NaN.  String-to-number
coercion is not modelled (`none`); no claim feeds a string where the code
multiplies. -/
def jsToNumber : JsVal → Option ℚ
  | .num q => some q
  | .bool b => some (if b then 1 else 0)
  | .null => some 0
  | _ => none

/-- JavaScript `Math.round`: round half toward positive infinity. -/
def mathRound (q : ℚ) : ℤ := ⌊q + 1 / 2⌋

/-- `SummaryGraph` (src/unnamed/part_000): the percent it titles and charts,
`Math.round(riskScore * 100)` after the default parameter `riskScore = 0`
replaces an `undefined` prop.  `none` is the NaN outcome of coercing a
non-number. -/
def summaryGraphPercent (riskScoreProp : JsVal) : Option ℤ :=
  let rs := match riskScoreProp with
    | .undefined => JsVal.num 0
    | v => v
  (jsToNumber rs).map fun q => mathRound (q * 100)

/-- The presentation-ready projection that `ResultCard` renders: the four
text children and the percent handed to `SummaryGraph`. -/
structure DisplayModel where
  inputTypeText : String
  summaryText : String
  riskText : String
  outcomeText : String
  percent : Option ℤ
deriving Repr

/-- Destructuring default: `const \x7b x = d \x7d = v` uses `d` exactly when the
property is `undefined`. -/
def destrD (v d : JsVal) : JsVal :=
  match v with
  | .undefined => d
  | _ => v

/-- The empty object literal used as a destructuring default. -/
def emptyObj : JsVal := .obj []

/-- `ResultCard` (src/frontend/src/components/ResultCard.js): `none` is the
early `return null` on a falsy `data` prop; an `Except.error` is a thrown
`TypeError` or a React child error. -/
def ResultCard (data : JsVal) : Except String (Option DisplayModel) := do
  if jsTruthy data = false then return none
  let metadata := destrD (← getField data "metadata") emptyObj
  let summary := destrD (← getField data "summary") (.str "")
  let risk_analysis := destrD (← getField data "risk_analysis") emptyObj
  let advanced_analysis := destrD (← getField data "advanced_analysis") emptyObj
  let inputTypeText ← renderChild (← getField metadata "input_type")
  let summaryText ← renderChild summary
  let riskText := jsString (← getField risk_analysis "risk_detected")
  let outcomeText ← renderChild (← getField advanced_analysis "call_outcome")
  let riskScoreProp := jsOr (← getField advanced_analysis "risk_score") (.num 0)
  return some ⟨inputTypeText, summaryText, riskText, outcomeText,
    summaryGraphPercent riskScoreProp⟩

/-- Well-typed report payloads: the nested `metadata` object with an optional
`input_type` string. -/
def mkMetadata (it : Option String) : JsVal :=
  .obj (match it with | some s => [("input_type", .str s)] | none => [])

/-- The nested `advanced_analysis` object with optional `call_outcome` and
`risk_score` fields. -/
def mkAdvanced (co : Option String) (rs : Option ℚ) : JsVal :=
  .obj ((match co with | some s => [("call_outcome", JsVal.str s)] | none => []) ++
    (match rs with | some q => [("risk_score", JsVal.num q)] | none => []))

/-- The nested `risk_analysis` object with an optional `risk_detected`
boolean. -/
def mkRisk (rd : Option Bool) : JsVal :=
  .obj (match rd with | some b => [("risk_detected", .bool b)] | none => [])

/-- A report payload with every optional field (top-level and nested)
independently present or absent, covering the defensive-parsing space of the
server response contract. -/
def mkPayload (md : Option (Option String)) (sm : Option String)
    (ra : Option (Option Bool)) (aa : Option (Option String × Option ℚ)) : JsVal :=
  .obj ((match md with | some it => [("metadata", mkMetadata it)] | none => []) ++
    (match sm with | some s => [("summary", JsVal.str s)] | none => []) ++
    (match ra with | some rd => [("risk_analysis", mkRisk rd)] | none => []) ++
    (match aa with | some p => [("advanced_analysis", mkAdvanced p.1 p.2)] | none => []))

/-- A lifecycle callback invocation observed by `App`: `start` is `onStart`,
`result` is `onResult`, `err` is `onError`. -/
inductive Event where
  | start
  | result (r : JsVal)
  | err (e : JsVal)

/-- The three `useState` fields of `App` (src/frontend/src/App.js):
`loading`, `result`, `error`.  `result` and `error` are initialised to JS
`null` and hold whatever value the setters receive. -/
structure AppState where
  loading : Bool
  result : JsVal
  error : JsVal

/-- The initial `useState` values: `false`, `null`, `null`. -/
def initialState : AppState := ⟨false, .null, .null⟩

/-- The callback bodies `App` wires into `UploadForm`: `onStart` sets
`loading` true and both `result` and `error` to `null`; `onResult` sets
`loading` false and overwrites `result`, leaving `error` untouched;
`onError` sets `loading` false and overwrites `error`, leaving `result`
untouched. -/
def step (s : AppState) : Event → AppState
  | .start => ⟨true, .null, .null⟩
  | .result r => ⟨false, r, s.error⟩
  | .err e => ⟨false, s.result, e⟩

/-- The state after a sequence of callback invocations. -/
def runEvents (s : AppState) (evs : List Event) : AppState := evs.foldl step s

/-- What the single `fetch` of `analyzeFile` resolves to: a transport-level
rejection carrying `err.message` (the empty string models a missing
message), or a response with a status, a body text, and the outcome of
`res.json()` (an `Except.error` is a rejected JSON parse carrying the parse
exception message). -/
inductive FetchOutcome where
  | networkFailure (msg : String)
  | response (status : Nat) (bodyText : String) (json : Except String JsVal)

/-- `res.ok`: the status is in the inclusive range 200..299. -/
def resOk (status : Nat) : Bool := 200 ≤ status && status ≤ 299

/-- The template literal of the non-ok branch of `analyzeFile`. -/
def serverMsg (status : Nat) (bodyText : String) : String :=
  "Server returned status " ++ toString status ++ ": " ++ bodyText

/-- `analyzeFile` (src/unnamed/part_001, api.js).  The `try` block spans the
fetch, the body reads and the JSON parse, so a transport rejection and a
JSON-parse rejection both land in the same `catch` and come back as
an object with only an `error` field; a non-ok status returns the
status-and-body message; an ok, parseable response returns the parsed data
unchanged. -/
def analyzeFile : FetchOutcome → JsVal
  | .networkFailure msg => .obj [("error", .str (strOr msg "Network error"))]
  | .response status bodyText json =>
    if resOk status = false then .obj [("error", .str (serverMsg status bodyText))]
    else
      match json with
      | .ok data => data
      | .error msg => .obj [("error", .str (strOr msg "Network error"))]

/-- The validation message of `handleSubmit`. -/
def validationMsg : String := "Please choose a file to upload"

/-- `handleSubmit` (src/backend/frontend/src/components/UploadForm.js):
returns the callback invocations it performs, in order, and whether
`analyzeFile` (the one network call) was reached.  With no file selected it
fires only `onError` with the validation message and returns before
`onStart` and before any network activity.  Otherwise it fires `onStart`,
calls `analyzeFile`, and dispatches on the truthiness of `res.error`; the
surrounding `try` also catches a `TypeError` from reading `.error` off a
non-object result and funnels it to `onError` with
`err.message || "Unknown error"`. -/
def handleSubmit (file : Option String) (inputType : String)
    (outcome : FetchOutcome) : List Event × Bool :=
  match file with
  | none => ([.err (.str validationMsg)], false)
  | some _ =>
    let res := analyzeFile outcome
    match getField res "error" with
    | .error em => ([.start, .err (.str (strOr em "Unknown error"))], true)
    | .ok errField =>
      if jsTruthy errField then ([.start, .err errField], true)
      else ([.start, .result res], true)

/-- A successful server payload with no `error` field, used by concrete
scenarios. -/
def goodReport : JsVal := .obj [("summary", .str "All good")]

/-- A 200 response whose body parses to `goodReport`. -/
def okOutcome : FetchOutcome := .response 200 "" (.ok goodReport)

/-- The fallback `|| 0` is the identity on numbers: a zero score is falsy but
the fallback is again `0`. -/
lemma jsOr_num_zero (q : ℚ) : jsOr (.num q) (.num 0) = .num q := by
  by_cases h : q = 0 <;> simp [jsOr, jsTruthy, h]

/-- Closed form of `ResultCard` on every well-typed payload, for any
combination of present and absent optional fields: it never throws, and each
display field degrades to its default when its source is absent. -/
lemma resultCard_mkPayload (md : Option (Option String)) (sm : Option String)
    (ra : Option (Option Bool)) (aa : Option (Option String × Option ℚ)) :
    ResultCard (mkPayload md sm ra aa) = Except.ok (some
      { inputTypeText := (md.getD none).getD ""
        summaryText := sm.getD ""
        riskText := match ra.getD none with
          | some b => if b then "true" else "false"
          | none => "undefined"
        outcomeText := ((aa.map Prod.fst).getD none).getD ""
        percent := some (mathRound (((aa.map Prod.snd).getD none).getD 0 * 100)) }) := by
  rcases aa with _ | ⟨co, rs⟩
  case none =>
    rcases md with _ | (_ | it) <;> rcases sm with _ | s <;> rcases ra with _ | (_ | rd) <;>
      simp [ResultCard, mkPayload, mkMetadata, mkRisk, mkAdvanced, getField, destrD,
        emptyObj, jsTruthy, renderChild, jsString, jsOr, summaryGraphPercent, jsToNumber,
        bind, Except.bind, pure, Except.pure, List.lookup] <;>
      norm_num [mathRound]
  case some =>
    rcases md with _ | (_ | it) <;> rcases sm with _ | s <;> rcases ra with _ | (_ | rd) <;>
      rcases co with _ | c <;> rcases rs with _ | q <;>
      simp [ResultCard, mkPayload, mkMetadata, mkRisk, mkAdvanced, getField, destrD,
        emptyObj, jsTruthy, renderChild, jsString, jsOr, summaryGraphPercent,
        jsToNumber, bind, Except.bind, pure, Except.pure, List.lookup] <;>
      norm_num [mathRound] <;>
      exact ⟨q, by by_cases h : q = 0 <;> simp [h]⟩

/-- The server-error message is never the empty string, hence truthy. -/
lemma serverMsg_ne_empty (st : Nat) (bt : String) : serverMsg st bt ≠ "" := by
  intro hc
  have h2 := congrArg String.length hc
  simp [serverMsg, String.length_append] at h2
  exact absurd h2.1.1.1 (by decide)

/-- C1: for every submission whose file is absent, `handleSubmit` fires only
`onError` with the validation message, reaches no network call, and the
lifecycle never enters Submitting: `onStart` is not among the fired
callbacks, and from any non-loading state the `loading` flag stays false. -/
theorem c1_missing_file_blocks_submission (it : String) (oc : FetchOutcome) :
    handleSubmit none it oc = ([Event.err (.str validationMsg)], false) ∧
    Event.start ∉ (handleSubmit none it oc).1 ∧
    ∀ (r e : JsVal), (runEvents ⟨false, r, e⟩ (handleSubmit none it oc).1).loading = false := by
  refine ⟨rfl, ?_, fun r e => rfl⟩
  simp [handleSubmit]

/-- C2: for every report payload, with any combination of the optional fields
and their nested fields missing (undefined), `ResultCard` does not throw and
yields a defined display model whose fields degrade to defaults: empty text
for absent strings, the `undefined` literal for the absent risk flag, and a
zero risk score. -/
theorem c2_present_never_throws (md : Option (Option String)) (sm : Option String)
    (ra : Option (Option Bool)) (aa : Option (Option String × Option ℚ)) :
    ResultCard (mkPayload md sm ra aa) = Except.ok (some
      { inputTypeText := (md.getD none).getD ""
        summaryText := sm.getD ""
        riskText := match ra.getD none with
          | some b => if b then "true" else "false"
          | none => "undefined"
        outcomeText := ((aa.map Prod.fst).getD none).getD ""
        percent := some (mathRound (((aa.map Prod.snd).getD none).getD 0 * 100)) }) :=
  resultCard_mkPayload md sm ra aa

/-- C3: the displayed percentage is `Math.round(riskScore * 100)`, i.e.
`mathRound`, the floor of the value plus one half (round half up); an absent
risk score renders 0, and out-of-range scores are not clamped: 1/2 renders
50, an absent score renders 0, 3/2 renders 150, and 1/8 rounds 12.5 up
to 13. -/
theorem c3_risk_percent_round_half_up :
    (∀ (md : Option (Option String)) (sm : Option String) (ra : Option (Option Bool))
        (co : Option String) (q : ℚ), ∃ dm,
        ResultCard (mkPayload md sm ra (some (co, some q))) = Except.ok (some dm) ∧
        dm.percent = some (mathRound (q * 100))) ∧
    (∀ (md : Option (Option String)) (sm : Option String) (ra : Option (Option Bool))
        (co : Option String), ∃ dm,
        ResultCard (mkPayload md sm ra (some (co, none))) = Except.ok (some dm) ∧
        dm.percent = some 0) ∧
    (∀ (md : Option (Option String)) (sm : Option String) (ra : Option (Option Bool)),
        ∃ dm, ResultCard (mkPayload md sm ra none) = Except.ok (some dm) ∧
        dm.percent = some 0) ∧
    (∃ dm, ResultCard (mkPayload none none none (some (none, some (1/2)))) =
        Except.ok (some dm) ∧ dm.percent = some 50) ∧
    (∃ dm, ResultCard (mkPayload none none none (some (none, some (3/2)))) =
        Except.ok (some dm) ∧ dm.percent = some 150) ∧
    (∃ dm, ResultCard (mkPayload none none none (some (none, some (1/8)))) =
        Except.ok (some dm) ∧ dm.percent = some 13) := by
  refine ⟨fun md sm ra co q => ⟨_, resultCard_mkPayload md sm ra (some (co, some q)), rfl⟩,
    fun md sm ra co => ⟨_, resultCard_mkPayload md sm ra (some (co, none)), ?_⟩,
    fun md sm ra => ⟨_, resultCard_mkPayload md sm ra none, ?_⟩,
    ⟨_, resultCard_mkPayload none none none (some (none, some (1/2))), ?_⟩,
    ⟨_, resultCard_mkPayload none none none (some (none, some (3/2))), ?_⟩,
    ⟨_, resultCard_mkPayload none none none (some (none, some (1/8))), ?_⟩⟩ <;>
  norm_num [mathRound]

/-- C4: for every response with a non-success status, `analyzeFile` returns
an error object whose message is the status-and-body template; the submit
handler funnels it to `onError` (a Failed state), and the message contains
the numeric status and the raw body text as substrings. -/
theorem c4_server_error_message (f it bt : String) (st : Nat)
    (j : Except String JsVal) (h : resOk st = false) :
    analyzeFile (.response st bt j) = .obj [("error", .str (serverMsg st bt))] ∧
    handleSubmit (some f) it (.response st bt j) =
      ([Event.start, Event.err (.str (serverMsg st bt))], true) ∧
    (∃ a b, serverMsg st bt = a ++ toString st ++ b) ∧
    (∃ a b, serverMsg st bt = a ++ bt ++ b) := by
  have hA : analyzeFile (.response st bt j) = .obj [("error", .str (serverMsg st bt))] := by
    simp [analyzeFile, h]
  refine ⟨hA, ?_,
    ⟨"Server returned status ", ": " ++ bt, by simp [serverMsg, String.append_assoc]⟩,
    ⟨"Server returned status " ++ toString st ++ ": ", "", by
      simp [serverMsg, String.append_assoc]⟩⟩
  simp [handleSubmit, hA, getField, List.lookup, jsTruthy, serverMsg_ne_empty st bt]

/-- Witness for C4 at the spec's scenario 2: status 500, body
"internal error". -/
theorem c4_witness :
    analyzeFile (.response 500 "internal error" (Except.error "boom")) =
      .obj [("error", .str (serverMsg 500 "internal error"))] ∧
    handleSubmit (some "a.txt") "text" (.response 500 "internal error" (Except.error "boom")) =
      ([Event.start, Event.err (.str (serverMsg 500 "internal error"))], true) ∧
    (∃ a b, serverMsg 500 "internal error" = a ++ toString 500 ++ b) ∧
    (∃ a b, serverMsg 500 "internal error" = a ++ "internal error" ++ b) :=
  c4_server_error_message "a.txt" "text" "internal error" 500 (Except.error "boom") (by decide)

/-- C5 counterexample: a transport failure and a JSON-parse failure with the
same underlying exception message produce literally identical results — they
are not distinguishable variants, refuting the claimed
TransportError/ParseError distinction. -/
theorem c5_counterexample :
    analyzeFile (.networkFailure "boom") =
      analyzeFile (.response 200 "irrelevant" (Except.error "boom")) := rfl

/-- C5 amended: `analyzeFile` has no variant structure; every failure comes
back as an object with a single `error` string.  A transport failure and a
parse failure both surface `err.message` (or the generic fallback) through
the same catch-all and yield identical results. -/
theorem c5_failures_collapsed (m bt : String) (st : Nat) (h : resOk st = true) :
    analyzeFile (.networkFailure m) = .obj [("error", .str (strOr m "Network error"))] ∧
    analyzeFile (.response st bt (Except.error m)) =
      .obj [("error", .str (strOr m "Network error"))] ∧
    analyzeFile (.networkFailure m) = analyzeFile (.response st bt (Except.error m)) := by
  refine ⟨rfl, ?_, ?_⟩ <;> simp [analyzeFile, h]

/-- Witness for C5 amended at a 200 response with an unparseable body. -/
theorem c5_witness :
    analyzeFile (.networkFailure "boom") =
      .obj [("error", .str (strOr "boom" "Network error"))] ∧
    analyzeFile (.response 200 "x" (Except.error "boom")) =
      .obj [("error", .str (strOr "boom" "Network error"))] ∧
    analyzeFile (.networkFailure "boom") =
      analyzeFile (.response 200 "x" (Except.error "boom")) :=
  c5_failures_collapsed "boom" "x" 200 (by decide)

/-- C6 counterexample: a successful submission followed by a validation
failure (submit with no file) leaves the old report in `result` and the
validation message in `error`, both truthy, so the report and the error are
rendered simultaneously — the three flags are not a tagged union. -/
theorem c6_counterexample :
    runEvents initialState
        ((handleSubmit (some "a.txt") "text" okOutcome).1 ++
          (handleSubmit none "text" okOutcome).1) =
      ⟨false, goodReport, .str validationMsg⟩ ∧
    jsTruthy goodReport = true ∧ jsTruthy (.str validationMsg) = true :=
  ⟨rfl, rfl, rfl⟩

/-- C6 amended: an error belonging to a started submission (one that went
through `onStart`) does replace the previous report: the resulting state
holds only the error and its `result` is null, hence not rendered.  Only the
validation path, which skips `onStart`, can leave a previous report visible
next to an error. -/
theorem c6_error_after_start_replaces_report (s : AppState) (e : JsVal) :
    runEvents s [Event.start, Event.err e] = ⟨false, .null, e⟩ ∧
    jsTruthy (runEvents s [Event.start, Event.err e]).result = false :=
  ⟨rfl, rfl⟩

/-- C7: `onStart` from any state sets `loading` and resets both the held
report and the error message to null. -/
theorem c7_start_resets (s : AppState) :
    step s Event.start = ⟨true, JsVal.null, JsVal.null⟩ := rfl

/-- C8 counterexample: overlapping submissions A then B where B succeeds
first and A fails last.  `onError` does not clear `result`, so B's report is
still held — and truthy, hence rendered — beside A's error: the final
visible state does not reflect only A's result, refuting the unrestricted
claim. -/
theorem c8_counterexample :
    runEvents initialState
        [Event.start, Event.start, Event.result goodReport,
          Event.err (.str "Failed to fetch")] =
      ⟨false, goodReport, .str "Failed to fetch"⟩ ∧
    jsTruthy goodReport = true ∧ jsTruthy (.str "Failed to fetch") = true :=
  ⟨rfl, rfl, rfl⟩

/-- C8 amended: completions carry no submission id and each unconditionally
overwrites the fields it sets, so the later completion of the same kind
wins: when A resolves after B and both resolve the same way, the final state
reflects A's result, not B's.  With mixed outcomes, however, `onResult`
never clears `error` and `onError` never clears `result`, so the earlier
completion's field survives beside the later one: the final visible state
then shows both and does not reflect only A. -/
theorem c8_completion_overwrites_by_kind (s : AppState) (rA rB eA eB : JsVal) :
    runEvents s [Event.start, Event.start, Event.result rB, Event.result rA] =
      ⟨false, rA, JsVal.null⟩ ∧
    runEvents s [Event.start, Event.start, Event.err eB, Event.err eA] =
      ⟨false, JsVal.null, eA⟩ ∧
    runEvents s [Event.start, Event.start, Event.result rB, Event.err eA] =
      ⟨false, rB, eA⟩ ∧
    runEvents s [Event.start, Event.start, Event.err eB, Event.result rA] =
      ⟨false, rA, eB⟩ :=
  ⟨rfl, rfl, rfl, rfl⟩

/-- C9 counterexample: with `risk_analysis` present but `risk_detected`
absent, `String(risk_analysis.risk_detected)` renders the literal
`undefined`, not the `false` textual representation the claim requires. -/
theorem c9_counterexample :
    ResultCard (mkPayload none none (some none) none) =
      Except.ok (some ⟨"", "", "undefined", "", some 0⟩) ∧
    ("undefined" : String) ≠ "false" := by
  constructor
  · rw [resultCard_mkPayload]
    norm_num [mathRound]
  · decide

/-- C9 amended: the risk flag is rendered through `String(...)` and is never
silently omitted — `true`/`false` when the boolean is present, and the
literal `undefined` (not `false`) when it is absent; the rendered text is
never empty. -/
theorem c9_risk_flag_literal_text (md : Option (Option String)) (sm : Option String)
    (ra : Option (Option Bool)) (aa : Option (Option String × Option ℚ)) :
    ∃ dm, ResultCard (mkPayload md sm ra aa) = Except.ok (some dm) ∧
      dm.riskText = (match ra.getD none with
        | some b => if b then "true" else "false"
        | none => "undefined") ∧
      dm.riskText ≠ "" := by
  refine ⟨_, resultCard_mkPayload md sm ra aa, rfl, ?_⟩
  rcases ra with _ | (_ | b)
  · exact (by decide : ("undefined" : String) ≠ "")
  · exact (by decide : ("undefined" : String) ≠ "")
  · cases b
    · exact (by decide : ("false" : String) ≠ "")
    · exact (by decide : ("true" : String) ≠ "")

/-- C10: a success-status response whose parsed body carries a truthy
top-level `error` field completes as a failure: `onError` receives that
field's value and no `onResult` fires, so the payload is never presented as
a report. -/
theorem c10_success_payload_error_field (f it bt : String) (st : Nat)
    (data ev : JsVal) (h1 : resOk st = true)
    (h2 : getField data "error" = Except.ok ev) (h3 : jsTruthy ev = true) :
    handleSubmit (some f) it (.response st bt (Except.ok data)) =
      ([Event.start, Event.err ev], true) := by
  simp [handleSubmit, analyzeFile, h1, h2, h3]

/-- Witness for C10: a 200 response parsing to an object whose `error` field
holds a nonempty string. -/
theorem c10_witness :
    handleSubmit (some "a.txt") "text"
        (.response 200 "" (Except.ok (.obj [("error", .str "quota exceeded")]))) =
      ([Event.start, Event.err (.str "quota exceeded")], true) :=
  c10_success_payload_error_field "a.txt" "text" "" 200
    (.obj [("error", .str "quota exceeded")]) (.str "quota exceeded")
    (by decide) rfl rfl

end Vajra
